import Mathlib

/-!
# WHG-Wetterstation — verification of the ingestion/aggregation/alert core

Shallow embedding of the data-ingestion-and-aggregation subsystem of the
WHG-Wetterstation server, translated from `src/database/queries.js`,
`src/routes/weather.js` and `src/database/schema.sql`, together with proofs
about the embedded operations.

Modelling conventions:

* JavaScript values that flow through the loosely typed payloads are modelled
  by `JsVal` (undefined, null, a rational number, or a string).  JavaScript
  `NaN` is represented as `none` in the partial numeric conversion `toNum`.
  String-to-number conversion is modelled for unsigned decimal-digit strings
  (the only numeric strings relevant here); any other string converts to
  `none` (NaN), matching e.g. `Number("bad") = NaN`.
* SQLite specifics that matter: the schema (`schema.sql`) declares its tables
  without `STRICT`, so columns have type *affinity* only — a value that cannot
  be converted to the declared type is stored as given and the `INSERT`
  succeeds (e.g. the TEXT value `"bad"` is stored in the REAL column
  `temperature` without error).  `INSERT OR IGNORE` on `senders` is a no-op
  when the `UNIQUE` column `sender_id` already holds the value.
* The `unix_timestamp` column is `BIGINT NOT NULL`; it is modelled as `ℤ`
  (readings with non-numeric timestamp submissions are outside the modelled
  scope; no property below depends on them).
* Database tables are modelled as Lean lists of row structures; an SQL
  `WHERE` clause becomes `List.filter`, `ORDER BY` becomes `List.mergeSort`,
  `GROUP BY`/`MIN` become explicit bucket/minimum computations.
-/

/-- A loosely typed JavaScript value as it appears in request payloads:
`undefined`, `null`, a (finite) number, or a string.  `NaN` is not a
constructor; it arises only as the `none` result of `toNum`. -/
inductive JsVal where
  | undef : JsVal
  | jsNull : JsVal
  | num : ℚ → JsVal
  | str : String → JsVal
deriving DecidableEq, Repr

namespace JsVal

/-- JavaScript truthiness for the modelled values: `undefined`, `null`,
`0` and `""` are falsy, everything else is truthy. -/
def truthy : JsVal → Bool
  | .undef => false
  | .jsNull => false
  | .num q => q != 0
  | .str s => s != ""

/-- JavaScript `a || b`: `a` when truthy, otherwise `b`. -/
def jsOr (a b : JsVal) : JsVal := if a.truthy then a else b

/-- JavaScript `ToNumber` on the modelled values, with `none` standing for
`NaN`: `undefined → NaN`, `null → 0`, numbers unchanged; an unsigned
decimal-digit string parses to its value, any other string is `NaN`
(signs, decimals and exponents in strings are outside the modelled scope;
no property below depends on them). -/
def toNum : JsVal → Option ℚ
  | .undef => none
  | .jsNull => some 0
  | .num q => some q
  | .str s => (s.toNat?).map (fun n => (n : ℚ))

/-- JavaScript `String(v)` on the modelled values (for numbers, the integer
case matches JavaScript exactly; non-integer number formatting is outside the
modelled scope; no property below depends on it). -/
def jsToString : JsVal → String
  | .undef => "undefined"
  | .jsNull => "null"
  | .num q => if q.den = 1 then toString q.num else toString q
  | .str s => s

/-- JavaScript `parseFloat` on the modelled values, with `none` for `NaN`:
a number parses to itself, an unsigned decimal-digit string to its value,
everything else (including `undefined` and `null`) to `NaN`. -/
def parseFloat : JsVal → Option ℚ
  | .num q => some q
  | .str s => (s.toNat?).map (fun n => (n : ℚ))
  | _ => none

end JsVal

open JsVal in
/-- One incoming request payload (`req.body` of the single-reading route, or
one entry of the batch route): a bag of optional, loosely typed fields.
Fields the code never reads are omitted. -/
structure Payload where
  id : JsVal := .undef
  temperature : JsVal := .undef
  humidity : JsVal := .undef
  pressure : JsVal := .undef
  bar : JsVal := .undef
  gasval : JsVal := .undef
  gas_value : JsVal := .undef
  light_level : JsVal := .undef
  battery_level : JsVal := .undef
  signal_strength : JsVal := .undef
  unix_timestamp : JsVal := .undef
  unix : JsVal := .undef
  time : JsVal := .undef
  name : JsVal := .undef
deriving DecidableEq, Repr

/-- A row of the `senders` table (`schema.sql`): `sender_id` is declared
`TEXT UNIQUE NOT NULL`; columns not read by any modelled operation
(location, description, coordinates, timestamps) are omitted. -/
structure Sender where
  sender_id : String
  name : String
  is_active : Bool
deriving DecidableEq, Repr

/-- A row of the `weather_data` table (`schema.sql`).  Sensor channels keep
the loosely typed value that was bound into the non-STRICT column;
`unix_timestamp` is the `BIGINT NOT NULL` column, modelled as `ℤ`. -/
structure WRow where
  rowid : ℕ
  sender_id : String
  temperature : JsVal
  humidity : JsVal
  pressure : JsVal
  light_level : JsVal
  battery_level : JsVal
  signal_strength : JsVal
  unix_timestamp : ℤ
deriving DecidableEq, Repr

/-- A row of the `alerts` table (`schema.sql`). -/
structure Alert where
  id : ℕ
  sender_id : String
  alert_type : String
  condition : String
  threshold_value : ℚ
  is_active : Bool
  last_triggered : Option ℤ
deriving DecidableEq, Repr

/-- A row of the `system_logs` table (`schema.sql`); the `metadata_json`
blob is not modelled (no property depends on it). -/
structure LogRow where
  sender_id : Option String
  log_level : String
  event_type : String
  message : String
deriving DecidableEq, Repr

/-- The persistent store: the tables of `schema.sql` that the modelled
operations touch. -/
structure DB where
  senders : List Sender
  weather_data : List WRow
  alerts : List Alert
  system_logs : List LogRow
deriving DecidableEq, Repr

/-- The empty database (freshly materialized schema). -/
def DB.empty : DB := ⟨[], [], [], []⟩

/-! ## `src/database/queries.js` — store operations -/

open JsVal

/-- `ensureSender(senderId, name)` (`queries.js`): an
`INSERT OR IGNORE INTO senders (sender_id, name, is_active) VALUES (?, ?, 1)`
with `senderName = name || `Sender ${senderId}``.  Since `sender_id` is
`UNIQUE`, the insert is ignored exactly when a row with this `sender_id`
already exists (insert-if-absent). -/
def ensureSender (senders : List Sender) (senderId : String) (name : JsVal) : List Sender :=
  if senders.any (fun s => s.sender_id == senderId) then senders
  else
    senders ++ [{ sender_id := senderId,
                  name := if name.truthy then name.jsToString else "Sender " ++ senderId,
                  is_active := true }]

/-- The timestamp coalescing of `insertWeatherData` (`queries.js`):
`data.unix_timestamp || data.unix || data.time || Math.floor(Date.now()/1000)`,
followed by storage into the `BIGINT` column (integer-valued submissions,
the only kind the senders produce, store their integer value; the floor is
the identity on them). -/
def effectiveTimestamp (p : Payload) (now : ℤ) : ℤ :=
  match (jsOr p.unix_timestamp (jsOr p.unix (jsOr p.time (JsVal.num (now : ℚ))))).toNum with
  | some q => ⌊q⌋
  | none => now

/-- The pressure coalescing of `insertWeatherData` (`queries.js`):
`data.pressure || data.bar || data.gasval || data.gas_value`
(first truthy wins, in this fixed precedence order). -/
def normalizedPressure (p : Payload) : JsVal :=
  jsOr p.pressure (jsOr p.bar (jsOr p.gasval p.gas_value))

/-- `insertWeatherData(senderId, data)` (`queries.js`): ensures the sender
row exists, then appends one `weather_data` row carrying the raw sensor
fields, the normalized pressure and the coalesced timestamp.  The non-STRICT
schema accepts any bound value, so the insert always succeeds. -/
def insertWeatherData (senderId : String) (p : Payload) (now : ℤ) (db : DB) : DB :=
  { db with
    senders := ensureSender db.senders senderId p.name,
    weather_data := db.weather_data ++
      [{ rowid := db.weather_data.length + 1,
         sender_id := senderId,
         temperature := p.temperature,
         humidity := p.humidity,
         pressure := normalizedPressure p,
         light_level := p.light_level,
         battery_level := p.battery_level,
         signal_strength := p.signal_strength,
         unix_timestamp := effectiveTimestamp p now }] }

/-- The `ORDER BY unix_timestamp ASC` ordering on `weather_data` rows. -/
def tsLe (a b : WRow) : Prop := a.unix_timestamp ≤ b.unix_timestamp

instance : DecidableRel tsLe := fun a b =>
  inferInstanceAs (Decidable (a.unix_timestamp ≤ b.unix_timestamp))

instance : IsTotal WRow tsLe := ⟨fun a b => Int.le_total a.unix_timestamp b.unix_timestamp⟩

instance : IsTrans WRow tsLe := ⟨fun _ _ _ h1 h2 => le_trans h1 h2⟩

/-- The `ORDER BY hour DESC` ordering on hour buckets (the `'%Y-%m-%d %H'`
strings order chronologically, i.e. as the bucket numbers do). -/
def bucketGe (a b : ℤ) : Prop := b ≤ a

instance : DecidableRel bucketGe := fun a b => inferInstanceAs (Decidable (b ≤ a))

instance : IsTotal ℤ bucketGe := ⟨fun a b => Int.le_total b a⟩

instance : IsTrans ℤ bucketGe := ⟨fun _ _ _ h1 h2 => le_trans h2 h1⟩

/-- `getWeatherDataRange(senderId, hoursAgo)` (`queries.js`):
`SELECT * FROM weather_data WHERE sender_id = ? AND unix_timestamp >= ?
ORDER BY unix_timestamp ASC` with the cutoff
`Math.floor(Date.now()/1000) - hoursAgo*3600`. -/
def getWeatherDataRange (table : List WRow) (senderId : String) (hoursAgo : ℕ) (now : ℤ) : List WRow :=
  let cutoff : ℤ := now - (hoursAgo : ℤ) * 3600
  (table.filter (fun r => r.sender_id == senderId && decide (cutoff ≤ r.unix_timestamp))).insertionSort tsLe

/-- The calendar-hour bucket of a unix timestamp:
`strftime('%Y-%m-%d %H', ts, 'unixepoch')` assigns two timestamps the same
string exactly when they lie in the same UTC hour, i.e. when their floored
quotients by 3600 agree; the string ordering is the chronological ordering of
the buckets.  The bucket is represented by that quotient. -/
def hourBucket (ts : ℤ) : ℤ := Int.fdiv ts 3600

/-- `MIN` over a list of values with a default for the empty list
(the SQL `MIN(unix_timestamp)` of a `GROUP BY` group, which is never
empty). -/
def listMinD : List ℤ → ℤ → ℤ
  | [], d => d
  | x :: xs, _ => xs.foldl min x

/-- The windowed rows of one sender:
`WHERE sender_id = ? AND unix_timestamp >= cutoff`. -/
def windowRows (table : List WRow) (senderId : String) (cutoff : ℤ) : List WRow :=
  table.filter (fun r => r.sender_id == senderId && decide (cutoff ≤ r.unix_timestamp))

/-- `MIN(unix_timestamp)` of one `GROUP BY` hour group of the inner query of
`getHourlySamples`. -/
def bucketMin (win : List WRow) (b : ℤ) : ℤ :=
  listMinD ((win.filter (fun r => hourBucket r.unix_timestamp == b)).map
    (fun r => r.unix_timestamp)) 0

/-- The groups the inner query of `getHourlySamples` keeps: the distinct hour
buckets of the windowed rows, ordered by hour string descending
(`ORDER BY hour DESC`), cut to `LIMIT safeHours`. -/
def selectedBuckets (win : List WRow) (safeHours : ℕ) : List ℤ :=
  (((win.map (fun r => hourBucket r.unix_timestamp)).dedup).insertionSort bucketGe).take safeHours

/-- The `min_unix` column of the inner query of `getHourlySamples`: one
minimum per kept group. -/
def sampleMins (win : List WRow) (safeHours : ℕ) : List ℤ :=
  (selectedBuckets win safeHours).map (bucketMin win)

/-- `getHourlySamples(senderId, hours)` (`queries.js`).  The inner query
groups the sender's readings of the window by hour string, takes
`MIN(unix_timestamp)` per group, orders the groups by hour string descending
and keeps at most `safeHours` of them; the outer query joins every row of the
sender whose hour string and timestamp match a kept group — since a group's
minimum lies inside its own bucket and therefore determines its hour string,
the join condition is exactly membership of the row's timestamp in the kept
minima — and orders ascending by timestamp.  `safeHours` reflects the guard
`Number.isInteger(parsedHours) && parsedHours > 0 ? parsedHours : 5`. -/
def getHourlySamples (table : List WRow) (senderId : String) (hours : ℕ) (now : ℤ) : List WRow :=
  let safeHours := if 0 < hours then hours else 5
  let cutoff : ℤ := now - (safeHours : ℤ) * 3600
  let win := windowRows table senderId cutoff
  (table.filter (fun r =>
    r.sender_id == senderId && (sampleMins win safeHours).contains r.unix_timestamp)).insertionSort tsLe

/-- `createAlert(alertData)` (`queries.js`): appends one `alerts` row with
`is_active = 1` and no `last_triggered`. -/
def createAlert (sender_id alert_type condition : String) (threshold_value : ℚ) (db : DB) : DB :=
  { db with
    alerts := db.alerts ++
      [{ id := db.alerts.length + 1,
         sender_id := sender_id,
         alert_type := alert_type,
         condition := condition,
         threshold_value := threshold_value,
         is_active := true,
         last_triggered := none }] }

/-- `getAlerts(senderId)` (`queries.js`):
`SELECT * FROM alerts WHERE sender_id = ? AND is_active = 1`. -/
def getAlerts (alerts : List Alert) (senderId : String) : List Alert :=
  alerts.filter (fun a => a.sender_id == senderId && a.is_active)

/-- The per-rule comparison of `checkAlerts` (`queries.js`): the JavaScript
comparison of the (possibly non-numeric) field value against the numeric
threshold under the rule's `condition`.  A value whose `ToNumber` is `NaN`
compares false under every operator.  Conditions other than `above`, `below`
and `equals` match no `case` and never trigger. -/
def shouldTrigger (condition : String) (v : JsVal) (threshold : ℚ) : Bool :=
  if condition = "above" then
    match v.toNum with
    | some q => decide (threshold < q)
    | none => false
  else if condition = "below" then
    match v.toNum with
    | some q => decide (q < threshold)
    | none => false
  else if condition = "equals" then
    match v.toNum with
    | some q => decide (|q - threshold| < 1/10)
    | none => false
  else false

/-- The field selection of `checkAlerts` (`queries.js`): the payload field
matching the rule's `alert_type`; `none` models the `default: continue`
branch for unknown types. -/
def alertField (alert_type : String) (p : Payload) : Option JsVal :=
  if alert_type = "temperature" then some p.temperature
  else if alert_type = "humidity" then some p.humidity
  else if alert_type = "pressure" then some p.pressure
  else if alert_type = "battery" then some p.battery_level
  else none

/-- One rule's verdict in `checkAlerts` (`queries.js`): skip unknown alert
types, skip a field that is `undefined` or `null`
(`if (value === undefined || value === null) continue`), otherwise compare
under the rule's condition. -/
def alertTriggers (a : Alert) (p : Payload) : Bool :=
  match alertField a.alert_type p with
  | none => false
  | some .undef => false
  | some .jsNull => false
  | some v => shouldTrigger a.condition v a.threshold_value

/-- `checkAlerts(senderId, data)` (`queries.js`): loads the sender's active
rules once, collects those whose comparison triggers (in rule order), and
stamps `last_triggered` on each fired rule's stored row.  Returns the fired
rules (as loaded, i.e. with their pre-update `last_triggered`) and the
updated store. -/
def checkAlerts (db : DB) (senderId : String) (p : Payload) (now : ℤ) : List Alert × DB :=
  let snapshot := getAlerts db.alerts senderId
  let triggered := snapshot.filter (fun a => alertTriggers a p)
  let alerts := db.alerts.map
    (fun a => if triggered.any (fun t => t.id == a.id) then { a with last_triggered := some now } else a)
  (triggered, { db with alerts := alerts })

/-- `logEvent(level, eventType, message, senderId, metadata)` (`queries.js`):
appends one `system_logs` row (the metadata blob is not modelled). -/
def logEvent (level eventType message : String) (senderId : Option String) (db : DB) : DB :=
  { db with
    system_logs := db.system_logs ++
      [{ sender_id := senderId, log_level := level, event_type := eventType, message := message }] }

/-! ## `src/routes/weather.js` — route handlers -/

/-- `VALID_ALERT_TYPES` (`weather.js`). -/
def VALID_ALERT_TYPES : List String := ["temperature", "humidity", "pressure"]

/-- `VALID_CONDITIONS` (`weather.js`). -/
def VALID_CONDITIONS : List String := [">", "<", ">=", "<=", "==", "!="]

/-- Outcome of the single-reading ingest route. -/
inductive IngestResult where
  | badRequest : String → IngestResult
  | ok : String → ℕ → List Alert → IngestResult
deriving DecidableEq, Repr

/-- `router.post('/')` (`weather.js`): coerce the payload's `id` with
`String(id)`, reject when the *coerced string* is falsy (i.e. empty), insert
the reading, evaluate the alerts against the raw payload, log a warning when
any fired, and answer with the sender key, the new row id and the fired
rules.  Storage failures are outside the modelled store and the `catch`
branch is therefore not reachable in the model. -/
def postSingle (p : Payload) (db : DB) (now : ℤ) : IngestResult × DB :=
  let senderId := p.id.jsToString
  if senderId = "" then (.badRequest "Sender ID is required", db)
  else
    let db1 := insertWeatherData senderId p now db
    let rowId := db.weather_data.length + 1
    let (triggered, db2) := checkAlerts db1 senderId p now
    let db3 :=
      if triggered.length > 0 then
        logEvent "warning" "alert_triggered"
          (toString triggered.length ++ " alert(s) triggered") (some senderId) db2
      else db2
    (.ok senderId rowId triggered, db3)

/-- The skip test of the batch loop (`weather.js`):
`typeof id == "undefined" || id === -1` — an absent `id`, or the strict
number `-1` (the string `"-1"` is not skipped). -/
def batchSkips (p : Payload) : Bool :=
  p.id == JsVal.undef || p.id == JsVal.num (-1)

/-- The accumulating state of the batch loop (`weather.js`):
`processedCount`, the per-entry `errors` list and the collected
`allTriggeredAlerts`, alongside the evolving store. -/
structure BatchState where
  db : DB
  processed : ℕ
  errors : List (String × String)
  allTriggered : List (String × List Alert)
deriving Repr

/-- One iteration of the batch loop (`weather.js`): skip an entry with an
absent or `-1` id; otherwise insert the entry, evaluate its alerts, collect
fired rules, and count it processed.  As in `postSingle`, the modelled store
accepts every value (non-STRICT SQLite type affinity), so the per-entry
`catch` branch is not reachable in the model and no entry lands in the error
list. -/
def batchStep (st : BatchState) (p : Payload) (now : ℤ) : BatchState :=
  if batchSkips p then st
  else
    let senderId := p.id.jsToString
    let db1 := insertWeatherData senderId p now st.db
    let (triggered, db2) := checkAlerts db1 senderId p now
    { db := db2,
      processed := st.processed + 1,
      errors := st.errors,
      allTriggered :=
        if triggered.length > 0 then st.allTriggered ++ [(senderId, triggered)]
        else st.allTriggered }

/-- Response of the batch route on the success path. -/
structure BatchResponse where
  processed : ℕ
  total : ℕ
  errors : List (String × String)
  alerts : List (String × List Alert)
deriving DecidableEq, Repr

/-- Outcome of the batch route. -/
inductive BatchResult where
  | badRequest : String → BatchResult
  | ok : BatchResponse → BatchResult
deriving DecidableEq, Repr

/-- `router.post('/batch')` (`weather.js`): reject an empty array (a
non-array body cannot arise in the typed model), fold the loop over the
entries, log a warning when any entry fired alerts, and report
`processed` (successfully inserted entries), `total` (length of the
submitted array), the error list and the fired alerts. -/
def postBatch (entries : List Payload) (db : DB) (now : ℤ) : BatchResult × DB :=
  if entries.length = 0 then (.badRequest "Empty array provided", db)
  else
    let final := entries.foldl (fun st p => batchStep st p now) ⟨db, 0, [], []⟩
    let db1 :=
      if final.allTriggered.length > 0 then
        logEvent "warning" "batch_alerts_triggered" "Alerts triggered during batch import"
          none final.db
      else final.db
    (.ok ⟨final.processed, entries.length, final.errors, final.allTriggered⟩, db1)

/-- Outcome of the create-alert route. -/
inductive CreateAlertResult where
  | badRequest : String → CreateAlertResult
  | created : ℕ → CreateAlertResult
deriving DecidableEq, Repr

/-- `Array.prototype.includes` of a string array applied to a loosely typed
value: SameValueZero equality matches only an equal string. -/
def jsIncludes (l : List String) (v : JsVal) : Bool :=
  match v with
  | .str s => l.contains s
  | _ => false

/-- `router.post('/alerts')` (`weather.js`): reject when a required field is
missing (`!sender_id || !alert_type || !condition ||
threshold_value === undefined`), when `alert_type` is not in
`VALID_ALERT_TYPES`, when `condition` is not in `VALID_CONDITIONS`, or when
`parseFloat(threshold_value)` is `NaN`; otherwise insert the rule (with the
parsed threshold) and log an info event. -/
def postAlerts (sender_id alert_type condition threshold_value : JsVal) (db : DB) :
    CreateAlertResult × DB :=
  if ¬sender_id.truthy ∨ ¬alert_type.truthy ∨ ¬condition.truthy ∨ threshold_value = JsVal.undef then
    (.badRequest "Missing required fields: sender_id, alert_type, condition, threshold_value", db)
  else if ¬jsIncludes VALID_ALERT_TYPES alert_type then
    (.badRequest "Invalid alert_type. Must be one of: temperature, humidity, pressure", db)
  else if ¬jsIncludes VALID_CONDITIONS condition then
    (.badRequest "Invalid condition. Must be one of: >, <, >=, <=, ==, !=", db)
  else
    match threshold_value.parseFloat with
    | none => (.badRequest "threshold_value must be a valid number", db)
    | some threshold =>
      let db1 := createAlert sender_id.jsToString alert_type.jsToString condition.jsToString
        threshold db
      let db2 := logEvent "info" "alert_created"
        ("Alert erstellt: " ++ alert_type.jsToString ++ " " ++ condition.jsToString)
        (some sender_id.jsToString) db1
      (.created (db.alerts.length + 1), db2)

/-- `router.get('/alerts/:senderId')` (`weather.js`): the sender's active
alert rules, as returned by `getAlerts`. -/
def listAlerts (db : DB) (senderId : String) : List Alert :=
  getAlerts db.alerts senderId

/-! ## Concrete instances used by the closed theorems below -/

/-- The fired-rules component of an ingest response (`alerts` in the JSON
answer of `router.post('/')`; empty on a rejected request). -/
def IngestResult.alerts : IngestResult → List Alert
  | .badRequest _ => []
  | .ok _ _ t => t

/-- A bare reading row for sender `"A"` with a given rowid and timestamp
(all sensor channels absent). -/
def mkRow (i : ℕ) (ts : ℤ) : WRow :=
  { rowid := i, sender_id := "A", temperature := .undef, humidity := .undef,
    pressure := .undef, light_level := .undef, battery_level := .undef,
    signal_strength := .undef, unix_timestamp := ts }

/-- An active alert rule for sender `"1"` with the given type, condition and
threshold. -/
def mkAlert (alert_type condition : String) (threshold : ℚ) : Alert :=
  { id := 1, sender_id := "1", alert_type := alert_type, condition := condition,
    threshold_value := threshold, is_active := true, last_triggered := none }

/-- A store holding exactly one alert rule. -/
def dbWithAlert (a : Alert) : DB := { DB.empty with alerts := [a] }

/-! ## Helper lemmas -/

theorem foldl_min_le_init (xs : List ℤ) (x : ℤ) : xs.foldl min x ≤ x := by
  induction xs generalizing x with
  | nil => simp
  | cons z zs ih => simpa using le_trans (ih (min x z)) (min_le_left x z)

theorem foldl_min_mem (xs : List ℤ) (x : ℤ) : xs.foldl min x ∈ x :: xs := by
  induction xs generalizing x with
  | nil => simp
  | cons y ys ih =>
    have h := ih (min x y)
    simp only [List.foldl_cons]
    rcases List.mem_cons.mp h with h1 | h1
    · rcases min_choice x y with hc | hc
      · rw [h1, hc]; exact List.mem_cons_self _ _
      · rw [h1, hc]; exact List.mem_cons_of_mem _ (List.mem_cons_self _ _)
    · exact List.mem_cons_of_mem _ (List.mem_cons_of_mem _ h1)

theorem foldl_min_le (xs : List ℤ) (x y : ℤ) (hy : y ∈ x :: xs) : xs.foldl min x ≤ y := by
  induction xs generalizing x with
  | nil =>
    rcases List.mem_cons.mp hy with h | h
    · simp [h]
    · cases h
  | cons z zs ih =>
    simp only [List.foldl_cons]
    rcases List.mem_cons.mp hy with h1 | h1
    · rw [h1]
      exact le_trans (foldl_min_le_init zs (min x z)) (min_le_left x z)
    · rcases List.mem_cons.mp h1 with h2 | h2
      · rw [h2]
        exact le_trans (foldl_min_le_init zs (min x z)) (min_le_right x z)
      · exact ih (min x z) (List.mem_cons_of_mem _ h2)

theorem listMinD_mem (l : List ℤ) (d : ℤ) (h : l ≠ []) : listMinD l d ∈ l := by
  cases l with
  | nil => exact absurd rfl h
  | cons x xs => exact foldl_min_mem xs x

theorem listMinD_le (l : List ℤ) (d x : ℤ) (hx : x ∈ l) : listMinD l d ≤ x := by
  cases l with
  | nil => cases hx
  | cons y ys => exact foldl_min_le ys y x hx

theorem checkAlerts_fst (db : DB) (sid : String) (p : Payload) (now : ℤ) :
    (checkAlerts db sid p now).1 = (getAlerts db.alerts sid).filter (fun a => alertTriggers a p) :=
  rfl

theorem checkAlerts_snd_weather (db : DB) (sid : String) (p : Payload) (now : ℤ) :
    (checkAlerts db sid p now).2.weather_data = db.weather_data := rfl

theorem checkAlerts_snd_senders (db : DB) (sid : String) (p : Payload) (now : ℤ) :
    (checkAlerts db sid p now).2.senders = db.senders := rfl

theorem mem_checkAlerts_iff (db : DB) (sid : String) (p : Payload) (now : ℤ) (a : Alert) :
    a ∈ (checkAlerts db sid p now).1 ↔
      a ∈ db.alerts ∧ a.sender_id = sid ∧ a.is_active = true ∧ alertTriggers a p = true := by
  rw [checkAlerts_fst]
  simp only [getAlerts, List.mem_filter, Bool.and_eq_true, beq_iff_eq]
  tauto

theorem alertTriggers_of_unhandled_condition (a : Alert) (p : Payload)
    (h1 : a.condition ≠ "above") (h2 : a.condition ≠ "below") (h3 : a.condition ≠ "equals") :
    alertTriggers a p = false := by
  unfold alertTriggers
  cases halt : alertField a.alert_type p with
  | none => rfl
  | some v =>
    cases v with
    | undef => rfl
    | jsNull => rfl
    | num q => simp [shouldTrigger, h1, h2, h3]
    | str s => simp [shouldTrigger, h1, h2, h3]

theorem ensureSender_of_present (ss : List Sender) (sid : String) (n : JsVal)
    (h : ss.any (fun s => s.sender_id == sid) = true) : ensureSender ss sid n = ss := by
  unfold ensureSender
  simp [h]

theorem ensureSender_any (ss : List Sender) (sid : String) (n : JsVal) :
    (ensureSender ss sid n).any (fun s => s.sender_id == sid) = true := by
  unfold ensureSender
  by_cases h : ss.any (fun s => s.sender_id == sid) = true
  · simp [h]
  · simp only [h, Bool.false_eq_true, if_false, List.any_append, List.any_cons, List.any_nil,
      beq_self_eq_true, Bool.true_or, Bool.or_true]

theorem ensureSender_countP_of_absent (ss : List Sender) (sid : String) (n : JsVal)
    (h : ss.any (fun s => s.sender_id == sid) = false) :
    (ensureSender ss sid n).countP (fun s => s.sender_id == sid) = 1 := by
  unfold ensureSender
  rw [h]
  have h0 : ss.countP (fun s => s.sender_id == sid) = 0 := by
    rw [List.countP_eq_zero]
    intro a ha
    have := List.any_eq_false.mp h a ha
    simpa using this
  simp [List.countP_append, h0, List.countP_cons]

theorem ensureSender_nodup (ss : List Sender) (sid : String) (n : JsVal)
    (h : (ss.map Sender.sender_id).Nodup) :
    ((ensureSender ss sid n).map Sender.sender_id).Nodup := by
  unfold ensureSender
  by_cases hc : ss.any (fun s => s.sender_id == sid) = true
  · simpa [hc] using h
  · rw [if_neg (by simp [hc])]
    rw [List.map_append]
    rw [List.nodup_append]
    refine ⟨h, by simp, ?_⟩
    intro x hx
    simp only [List.map_cons, List.map_nil, List.mem_cons, List.not_mem_nil, or_false]
    intro hxs
    rw [hxs] at hx
    rcases List.mem_map.mp hx with ⟨s, hs, hss⟩
    have hall : ∀ x ∈ ss, ¬x.sender_id = sid := by simpa using hc
    exact hall s hs hss

theorem alertTriggers_of_symbol_condition (a : Alert) (p : Payload)
    (h : a.condition ∈ VALID_CONDITIONS) : alertTriggers a p = false := by
  simp only [VALID_CONDITIONS, List.mem_cons, List.not_mem_nil, or_false] at h
  rcases h with h | h | h | h | h | h <;>
    exact alertTriggers_of_unhandled_condition a p (by rw [h]; decide) (by rw [h]; decide)
      (by rw [h]; decide)

/-! ## Claims -/

/-- C1: the claim says a rule accepted by the create-alert operation (whose
condition is validated against the symbol set `>`, `<`, `>=`, `<=`, `==`,
`!=`) is subsequently evaluated with the corresponding comparison semantics.
The code refutes this: `checkAlerts` matches only the word forms `above`,
`below`, `equals`, so every rule whose condition passed the route validation
evaluates to "no trigger" on every payload — a rule created with `>` and
threshold 30 does not fire on a temperature of 35, although the word-form
rule `above` does.  The intersection of `VALID_CONDITIONS` and the
conditions `checkAlerts` can match is empty: no rule the API creates can
ever fire. -/
theorem C1_accepted_condition_rules_never_fire :
    (∀ (a : Alert) (p : Payload), a.condition ∈ VALID_CONDITIONS → alertTriggers a p = false) ∧
    (∀ (db : DB) (sid : String) (p : Payload) (now : ℤ) (a : Alert),
      a.condition ∈ VALID_CONDITIONS → a ∉ (checkAlerts db sid p now).1) ∧
    (postAlerts (.str "1") (.str "temperature") (.str ">") (.num 30) DB.empty).1 = .created 1 ∧
    (postSingle { id := .num 1, temperature := .num 35 }
        (postAlerts (.str "1") (.str "temperature") (.str ">") (.num 30) DB.empty).2 1000).1 =
      .ok "1" 1 [] ∧
    shouldTrigger "above" (.num 35) 30 = true := by
  refine ⟨alertTriggers_of_symbol_condition, ?_, by decide, by decide, by decide⟩
  intro db sid p now a h hmem
  rw [mem_checkAlerts_iff] at hmem
  rw [alertTriggers_of_symbol_condition a p h] at hmem
  exact Bool.false_ne_true hmem.2.2.2

/-- Witness for C1 at a concrete rule and reading: the rule
`temperature > 30` (condition in `VALID_CONDITIONS`) does not trigger on a
reading with temperature 35. -/
theorem C1_accepted_condition_rules_never_fire_witness :
    alertTriggers (mkAlert "temperature" ">" 30) { id := .num 1, temperature := .num 35 } = false ∧
    (mkAlert "temperature" ">" 30) ∉
      (checkAlerts (dbWithAlert (mkAlert "temperature" ">" 30)) "1"
        { id := .num 1, temperature := .num 35 } 0).1 :=
  ⟨C1_accepted_condition_rules_never_fire.1 _ _ (by decide),
   C1_accepted_condition_rules_never_fire.2.1 _ _ _ _ _ (by decide)⟩

/-- C2: the claim says a single-reading ingest with an absent `id` is
rejected before any persistence.  The code refutes this:
`String(undefined)` is the non-empty string `"undefined"`, so the guard
`if (!senderId)` passes, the reading is inserted, and a sender row with
`sender_id = "undefined"` is auto-created. -/
theorem C2_missing_sender_id_not_rejected :
    (postSingle {} DB.empty 1000).1 = .ok "undefined" 1 [] ∧
    ((postSingle {} DB.empty 1000).2.senders.map Sender.sender_id) = ["undefined"] ∧
    (postSingle {} DB.empty 1000).2.weather_data.length = 1 := by
  decide

/-- C6: the claim says the create-alert operation accepts exactly the types
temperature, humidity, pressure, battery.  The code refutes the battery
part: `VALID_ALERT_TYPES` in `weather.js` is
`['temperature', 'humidity', 'pressure']`, so a battery alert is rejected
with no row written (the store is returned unchanged, hence `listAlerts` is
unchanged) — although the evaluation engine (`checkAlerts`) does handle
`battery` rules and the seed script creates them.  The other three types are
accepted, and genuinely unknown types are rejected before any write. -/
theorem C6_battery_alert_type_rejected :
    "battery" ∉ VALID_ALERT_TYPES ∧
    (postAlerts (.str "1") (.str "battery") (.str "<") (.num 20)
        (dbWithAlert (mkAlert "temperature" "above" 25))) =
      (.badRequest "Invalid alert_type. Must be one of: temperature, humidity, pressure",
       dbWithAlert (mkAlert "temperature" "above" 25)) ∧
    listAlerts (dbWithAlert (mkAlert "temperature" "above" 25)) "1" =
      [mkAlert "temperature" "above" 25] ∧
    alertTriggers (mkAlert "battery" "below" 20) { battery_level := .num 15 } = true ∧
    (postAlerts (.str "1") (.str "temperature") (.str ">") (.num 20) DB.empty).1 = .created 1 ∧
    (postAlerts (.str "1") (.str "invalid_type") (.str ">") (.num 20) DB.empty) =
      (.badRequest "Invalid alert_type. Must be one of: temperature, humidity, pressure",
       DB.empty) := by
  decide

theorem alertTriggers_above (a : Alert) (p : Payload) (hcond : a.condition = "above")
    (hnum : ∀ s : String, alertField a.alert_type p ≠ some (.str s)) :
    (alertTriggers a p = true ↔
      ∃ q : ℚ, alertField a.alert_type p = some (.num q) ∧ a.threshold_value < q) := by
  unfold alertTriggers
  cases hf : alertField a.alert_type p with
  | none => simp
  | some v =>
    cases v with
    | undef => simp
    | jsNull => simp
    | str s => exact absurd hf (hnum s)
    | num q => simp [shouldTrigger, hcond, JsVal.toNum]

theorem alertTriggers_equals (a : Alert) (p : Payload) (hcond : a.condition = "equals")
    (hnum : ∀ s : String, alertField a.alert_type p ≠ some (.str s)) :
    (alertTriggers a p = true ↔
      ∃ q : ℚ, alertField a.alert_type p = some (.num q) ∧ |q - a.threshold_value| < 1/10) := by
  unfold alertTriggers
  cases hf : alertField a.alert_type p with
  | none => simp
  | some v =>
    cases v with
    | undef => simp
    | jsNull => simp
    | str s => exact absurd hf (hnum s)
    | num q => simp [shouldTrigger, hcond, JsVal.toNum]

/-- C7: an active alert rule whose condition is the exceeds comparison (word
form `above` in `checkAlerts`) with threshold 30 is fired by the evaluation
exactly when the reading field matching its `alert_type` is present (neither
undefined nor null) and strictly greater than 30; in particular it never
fires on an absent field.  The field is assumed not to carry a string (the
claim speaks of numeric readings). -/
theorem C7_exceeds_rule_fires_iff (db : DB) (sid : String) (p : Payload) (now : ℤ) (a : Alert)
    (hmem : a ∈ db.alerts) (hsid : a.sender_id = sid) (hact : a.is_active = true)
    (hcond : a.condition = "above") (hthr : a.threshold_value = 30)
    (hnum : ∀ s : String, alertField a.alert_type p ≠ some (.str s)) :
    (a ∈ (checkAlerts db sid p now).1 ↔
      ∃ q : ℚ, alertField a.alert_type p = some (.num q) ∧ 30 < q) := by
  rw [mem_checkAlerts_iff]
  have hA := alertTriggers_above a p hcond hnum
  constructor
  · rintro ⟨-, -, -, ht⟩
    rcases hA.mp ht with ⟨q, hf, hq⟩
    rw [hthr] at hq
    exact ⟨q, hf, hq⟩
  · rintro ⟨q, hf, hq⟩
    rw [← hthr] at hq
    exact ⟨hmem, hsid, hact, hA.mpr ⟨q, hf, hq⟩⟩

/-- Witness for C7: the rule `temperature above 30` on a reading with
temperature 35. -/
theorem C7_exceeds_rule_fires_iff_witness :
    (mkAlert "temperature" "above" 30) ∈
      (checkAlerts (dbWithAlert (mkAlert "temperature" "above" 30)) "1"
        { temperature := .num 35 } 0).1 ↔
    ∃ q : ℚ, alertField (mkAlert "temperature" "above" 30).alert_type
        { temperature := JsVal.num 35 } = some (.num q) ∧ 30 < q :=
  C7_exceeds_rule_fires_iff _ "1" _ 0 _ (by decide) (by decide) (by decide) (by decide) (by decide)
    (by intro s h; simp [alertField, mkAlert] at h)

/-- C10: an active alert rule with condition `equals` is fired by the
evaluation exactly when the reading field matching its `alert_type` is
present (neither undefined nor null) and within the fixed tolerance of the
threshold: `Math.abs(value - threshold_value) < 0.1`, modelled with the
rational 1/10 for the literal `0.1`.  The field is assumed not to carry a
string (the claim speaks of numeric readings). -/
theorem C10_equals_rule_tolerance (db : DB) (sid : String) (p : Payload) (now : ℤ) (a : Alert)
    (hmem : a ∈ db.alerts) (hsid : a.sender_id = sid) (hact : a.is_active = true)
    (hcond : a.condition = "equals")
    (hnum : ∀ s : String, alertField a.alert_type p ≠ some (.str s)) :
    (a ∈ (checkAlerts db sid p now).1 ↔
      ∃ q : ℚ, alertField a.alert_type p = some (.num q) ∧ |q - a.threshold_value| < 1/10) := by
  rw [mem_checkAlerts_iff]
  have hA := alertTriggers_equals a p hcond hnum
  constructor
  · rintro ⟨-, -, -, ht⟩
    exact hA.mp ht
  · rintro ⟨q, hf, hq⟩
    exact ⟨hmem, hsid, hact, hA.mpr ⟨q, hf, hq⟩⟩

/-- Witness for C10: the rule `humidity equals 50` on a reading with
humidity 50.05 (within tolerance). -/
theorem C10_equals_rule_tolerance_witness :
    (mkAlert "humidity" "equals" 50) ∈
      (checkAlerts (dbWithAlert (mkAlert "humidity" "equals" 50)) "1"
        { humidity := .num (1001/20) } 0).1 ↔
    ∃ q : ℚ, alertField (mkAlert "humidity" "equals" 50).alert_type
        { humidity := JsVal.num (1001/20) } = some (.num q) ∧
      |q - (mkAlert "humidity" "equals" 50).threshold_value| < 1/10 :=
  C10_equals_rule_tolerance _ "1" _ 0 _ (by decide) (by decide) (by decide) (by decide)
    (by intro s h; simp [alertField, mkAlert] at h)

/-- C9: ingestion auto-registers the sender insert-if-absent: for an unseen
identifier exactly one sender row with that identifier exists afterwards;
re-ingesting under the same identifier leaves the sender table unchanged;
and every ingestion preserves the invariant that sender identifiers are
pairwise distinct (the `UNIQUE` column). -/
theorem C9_sender_auto_registration (db : DB) (sid : String) (p p2 : Payload) (now now2 : ℤ) :
    ((insertWeatherData sid p now db).senders = ensureSender db.senders sid p.name) ∧
    (db.senders.any (fun s => s.sender_id == sid) = false →
      (insertWeatherData sid p now db).senders.countP (fun s => s.sender_id == sid) = 1) ∧
    ((insertWeatherData sid p2 now2 (insertWeatherData sid p now db)).senders =
      (insertWeatherData sid p now db).senders) ∧
    ((db.senders.map Sender.sender_id).Nodup →
      ((insertWeatherData sid p now db).senders.map Sender.sender_id).Nodup) := by
  refine ⟨rfl, ?_, ?_, ?_⟩
  · intro h
    exact ensureSender_countP_of_absent db.senders sid p.name h
  · show ensureSender (ensureSender db.senders sid p.name) sid p2.name =
      ensureSender db.senders sid p.name
    exact ensureSender_of_present _ _ _ (ensureSender_any db.senders sid p.name)
  · intro h
    exact ensureSender_nodup db.senders sid p.name h

/-- Witness for C9: first ingest for the unseen identifier `"7"` creates
exactly one matching sender row, and a second ingest adds none. -/
theorem C9_sender_auto_registration_witness :
    DB.empty.senders.any (fun s => s.sender_id == "7") = false ∧
    (insertWeatherData "7" {} 0 DB.empty).senders.countP (fun s => s.sender_id == "7") = 1 ∧
    (insertWeatherData "7" {} 1 (insertWeatherData "7" {} 0 DB.empty)).senders =
      (insertWeatherData "7" {} 0 DB.empty).senders :=
  ⟨by decide, (C9_sender_auto_registration DB.empty "7" {} {} 0 1).2.1 (by decide),
    (C9_sender_auto_registration DB.empty "7" {} {} 0 1).2.2.1⟩

/-- C8: `getWeatherDataRange` returns only rows of the requested sender with
`unix_timestamp ≥ now − H·3600`, in ascending timestamp order, and for a
fixed `now` the result size is monotonically non-decreasing in `H`. -/
theorem C8_range_window_sorted_monotone (table : List WRow) (sid : String) (now : ℤ) :
    (∀ H : ℕ, ∀ r ∈ getWeatherDataRange table sid H now,
      r ∈ table ∧ r.sender_id = sid ∧ now - (H : ℤ) * 3600 ≤ r.unix_timestamp) ∧
    (∀ H : ℕ, (getWeatherDataRange table sid H now).Sorted tsLe) ∧
    (∀ H1 H2 : ℕ, H1 ≤ H2 →
      (getWeatherDataRange table sid H1 now).length ≤
        (getWeatherDataRange table sid H2 now).length) := by
  refine ⟨?_, ?_, ?_⟩
  · intro H r hr
    simp only [getWeatherDataRange, List.mem_insertionSort, List.mem_filter,
      Bool.and_eq_true, beq_iff_eq, decide_eq_true_eq] at hr
    exact ⟨hr.1, hr.2.1, hr.2.2⟩
  · intro H
    unfold getWeatherDataRange
    exact List.sorted_insertionSort tsLe _
  · intro H1 H2 h
    unfold getWeatherDataRange
    rw [(List.perm_insertionSort tsLe _).length_eq, (List.perm_insertionSort tsLe _).length_eq]
    apply List.Sublist.length_le
    apply List.monotone_filter_right
    intro r hr
    simp only [Bool.and_eq_true, beq_iff_eq, decide_eq_true_eq] at hr ⊢
    refine ⟨hr.1, le_trans ?_ hr.2⟩
    have : (H1 : ℤ) * 3600 ≤ (H2 : ℤ) * 3600 := by
      have : (H1 : ℤ) ≤ (H2 : ℤ) := Int.ofNat_le.mpr h
      nlinarith
    linarith
  
/-- Witness for C8 at a concrete table: windows of 1 and 2 hours around
`now = 10000`. -/
theorem C8_range_window_sorted_monotone_witness :
    (getWeatherDataRange [mkRow 1 7000, mkRow 2 9000] "A" 1 10000).length ≤
      (getWeatherDataRange [mkRow 1 7000, mkRow 2 9000] "A" 2 10000).length :=
  (C8_range_window_sorted_monotone [mkRow 1 7000, mkRow 2 9000] "A" 10000).2.2 1 2 (by decide)

theorem postSingle_ok (p : Payload) (db : DB) (now : ℤ) (h : ¬p.id.jsToString = "") :
    (postSingle p db now).1 =
      .ok p.id.jsToString (db.weather_data.length + 1)
        ((getAlerts db.alerts p.id.jsToString).filter (fun a => alertTriggers a p)) ∧
    (postSingle p db now).2.weather_data =
      db.weather_data ++
        [{ rowid := db.weather_data.length + 1, sender_id := p.id.jsToString,
           temperature := p.temperature, humidity := p.humidity,
           pressure := normalizedPressure p, light_level := p.light_level,
           battery_level := p.battery_level, signal_strength := p.signal_strength,
           unix_timestamp := effectiveTimestamp p now }] := by
  unfold postSingle
  rw [if_neg h]
  constructor
  · rfl
  · show (if ((checkAlerts (insertWeatherData p.id.jsToString p now db) p.id.jsToString p
        now).1.length > 0) then _ else _ : DB).weather_data = _
    rw [apply_ite DB.weather_data]
    have hlog : ∀ (l e m : String) (s : Option String) (d : DB),
        (logEvent l e m s d).weather_data = d.weather_data := fun _ _ _ _ _ => rfl
    rw [hlog]
    rw [ite_self]
    rfl

/-- C3 counterexample: a payload carrying pressure only under the legacy
field name `bar` (value 1013), ingested while an active rule
`pressure above 1000` exists.  The persisted row holds the canonical
normalized pressure 1013, the comparison on 1013 would trigger, yet the
evaluation — run on the raw payload, whose `pressure` field is absent —
fires nothing. -/
theorem C3_counterexample :
    ((postSingle { id := .num 1, bar := .num 1013 }
        (dbWithAlert (mkAlert "pressure" "above" 1000)) 2000).2.weather_data.map
      WRow.pressure) = [.num 1013] ∧
    shouldTrigger "above" (.num 1013) 1000 = true ∧
    (postSingle { id := .num 1, bar := .num 1013 }
        (dbWithAlert (mkAlert "pressure" "above" 1000)) 2000).1 = .ok "1" 1 [] := by
  decide

/-- C3 amended: for every accepted single-reading ingest, the persisted row
holds the canonical normalized pressure (legacy names `bar`, `gasval`,
`gas_value` coalesced), and the synchronous alert evaluation runs against
the *raw request payload*: a rule fires exactly when it is an active rule of
this sender and its comparison triggers on the raw payload — whose pressure
field, for pressure rules, is the payload's own `pressure` attribute, so a
reading whose pressure arrived only under a legacy name is persisted
normalized but skipped by pressure rules. -/
theorem C3_alert_evaluation_sees_raw_payload (p : Payload) (db : DB) (now : ℤ)
    (h : ¬p.id.jsToString = "") :
    (((postSingle p db now).2.weather_data.map WRow.pressure).getLast? =
      some (normalizedPressure p)) ∧
    (∀ a : Alert, a ∈ (postSingle p db now).1.alerts ↔
      a ∈ db.alerts ∧ a.sender_id = p.id.jsToString ∧ a.is_active = true ∧
        alertTriggers a p = true) ∧
    alertField "pressure" p = some p.pressure := by
  refine ⟨?_, ?_, rfl⟩
  · rw [(postSingle_ok p db now h).2]
    rw [List.map_append]
    simp
  · intro a
    rw [(postSingle_ok p db now h).1]
    show a ∈ (checkAlerts db p.id.jsToString p now).1 ↔ _
    exact mem_checkAlerts_iff db p.id.jsToString p now a

/-- Witness for C3 amended, at the counterexample's input: the persisted
pressure of the ingested row is the normalized legacy value. -/
theorem C3_alert_evaluation_sees_raw_payload_witness :
    (((postSingle { id := .num 1, bar := .num 1013 }
        (dbWithAlert (mkAlert "pressure" "above" 1000)) 2000).2.weather_data.map
      WRow.pressure).getLast? =
      some (normalizedPressure { id := .num 1, bar := .num 1013 })) :=
  (C3_alert_evaluation_sees_raw_payload { id := .num 1, bar := .num 1013 }
    (dbWithAlert (mkAlert "pressure" "above" 1000)) 2000 (by decide)).1

theorem batch_foldl_spec (entries : List Payload) (st : BatchState) (now : ℤ) :
    (entries.foldl (fun s p => batchStep s p now) st).processed =
      st.processed + entries.countP (fun p => !batchSkips p) ∧
    (entries.foldl (fun s p => batchStep s p now) st).errors = st.errors ∧
    ∃ tail : List WRow,
      (entries.foldl (fun s p => batchStep s p now) st).db.weather_data =
        st.db.weather_data ++ tail ∧
      tail.length = entries.countP (fun p => !batchSkips p) := by
  induction entries generalizing st with
  | nil => exact ⟨by simp, rfl, [], by simp, by simp⟩
  | cons p ps ih =>
    simp only [List.foldl_cons, List.countP_cons]
    by_cases hskip : batchSkips p = true
    · have hstep : batchStep st p now = st := by
        unfold batchStep
        rw [if_pos hskip]
      rw [hstep]
      rcases ih st with ⟨h1, h2, tail, h3, h4⟩
      refine ⟨?_, h2, tail, h3, ?_⟩
      · rw [h1]
        simp [hskip]
      · rw [h4]
        simp [hskip]
    · have hskip' : (!batchSkips p) = true := by
        simp only [Bool.not_eq_true] at hskip
        simp [hskip]
      have h1 : (batchStep st p now).processed = st.processed + 1 := by
        unfold batchStep
        rw [if_neg hskip]
      have h2 : (batchStep st p now).errors = st.errors := by
        unfold batchStep
        rw [if_neg hskip]
      have h3 : ∃ row : WRow, (batchStep st p now).db.weather_data =
          st.db.weather_data ++ [row] := by
        unfold batchStep
        rw [if_neg hskip]
        exact ⟨_, rfl⟩
      rcases h3 with ⟨row, h3⟩
      rcases ih (batchStep st p now) with ⟨i1, i2, tail, i3, i4⟩
      refine ⟨?_, by rw [i2, h2], row :: tail, ?_, ?_⟩
      · rw [i1, h1]
        simp only [hskip', if_true]
        omega
      · rw [i3, h3, List.append_assoc, List.singleton_append]
      · simp only [List.length_cons, i4, hskip', if_true]

/-- C5 counterexample: the spec's three-entry example
`[{id:1,temperature:20}, {id:-1}, {id:2,temperature:"bad"}]` does not yield
`processed = 1` with id 2 in the error list: the store's non-STRICT columns
accept the non-numeric temperature, so the third entry inserts successfully
and the batch reports `processed = 2`, `total = 3` and an empty error
list. -/
theorem C5_counterexample :
    (postBatch
      [{ id := .num 1, temperature := .num 20 }, { id := .num (-1) },
       { id := .num 2, temperature := .str "bad" }] DB.empty 1000).1 =
    .ok ⟨2, 3, [], []⟩ := by
  decide

/-- C5 amended: batch ingestion processes entries independently and never
aborts: entries with an absent id or the strict sentinel `-1` are silently
skipped (not counted, not errored); every other entry is inserted; the
response reports `processed` = number of inserted entries and `total` =
length of the submitted array; the error list stays empty (under the
modelled store no insert fails — in particular a non-numeric temperature is
accepted, so the spec's example yields `processed = 2`); and the rows
present before the batch stay committed, with exactly one row appended per
processed entry. -/
theorem C5_batch_counts_and_commits (entries : List Payload) (db : DB) (now : ℤ)
    (h : entries ≠ []) :
    ∃ resp : BatchResponse,
      (postBatch entries db now).1 = .ok resp ∧
      resp.total = entries.length ∧
      resp.processed = entries.countP (fun p => !batchSkips p) ∧
      resp.errors = [] ∧
      ∃ tail : List WRow,
        (postBatch entries db now).2.weather_data = db.weather_data ++ tail ∧
        tail.length = resp.processed := by
  have hne : ¬entries.length = 0 := by simpa using h
  rcases batch_foldl_spec entries ⟨db, 0, [], []⟩ now with ⟨h1, h2, tail, h3, h4⟩
  refine ⟨⟨(entries.foldl (fun s p => batchStep s p now) ⟨db, 0, [], []⟩).processed,
          entries.length,
          (entries.foldl (fun s p => batchStep s p now) ⟨db, 0, [], []⟩).errors,
          (entries.foldl (fun s p => batchStep s p now) ⟨db, 0, [], []⟩).allTriggered⟩,
      ?_, rfl, ?_, ?_, tail, ?_, ?_⟩
  · unfold postBatch
    rw [if_neg hne]
  · show (entries.foldl (fun s p => batchStep s p now) ⟨db, 0, [], []⟩).processed = _
    rw [h1]
    exact Nat.zero_add _
  · exact h2
  · show (postBatch entries db now).2.weather_data = _
    unfold postBatch
    rw [if_neg hne]
    show (if _ > 0 then _ else _ : DB).weather_data = _
    rw [apply_ite DB.weather_data]
    have hlog : ∀ (l e m : String) (s : Option String) (d : DB),
        (logEvent l e m s d).weather_data = d.weather_data := fun _ _ _ _ _ => rfl
    rw [hlog]
    rw [ite_self]
    exact h3
  · show tail.length = (entries.foldl (fun s p => batchStep s p now) ⟨db, 0, [], []⟩).processed
    rw [h1, h4]
    exact (Nat.zero_add _).symm

/-- Witness for C5 amended, at the spec's example batch. -/
theorem C5_batch_counts_and_commits_witness :
    ∃ resp : BatchResponse,
      (postBatch
        [{ id := .num 1, temperature := .num 20 }, { id := .num (-1) },
         { id := .num 2, temperature := .str "bad" }] DB.empty 1000).1 = .ok resp ∧
      resp.total =
        ([{ id := .num 1, temperature := .num 20 }, { id := .num (-1) },
          { id := .num 2, temperature := .str "bad" }] : List Payload).length ∧
      resp.processed =
        ([{ id := .num 1, temperature := .num 20 }, { id := .num (-1) },
          { id := .num 2, temperature := .str "bad" }] : List Payload).countP
          (fun p => !batchSkips p) ∧
      resp.errors = [] ∧
      ∃ tail : List WRow,
        (postBatch
          [{ id := .num 1, temperature := .num 20 }, { id := .num (-1) },
           { id := .num 2, temperature := .str "bad" }] DB.empty 1000).2.weather_data =
          DB.empty.weather_data ++ tail ∧
        tail.length = resp.processed :=
  C5_batch_counts_and_commits
    [{ id := .num 1, temperature := .num 20 }, { id := .num (-1) },
     { id := .num 2, temperature := .str "bad" }] DB.empty 1000 (by decide)

theorem mem_windowRows (table : List WRow) (sid : String) (cutoff : ℤ) (r : WRow) :
    r ∈ windowRows table sid cutoff ↔
      r ∈ table ∧ r.sender_id = sid ∧ cutoff ≤ r.unix_timestamp := by
  simp [windowRows, List.mem_filter, Bool.and_eq_true, beq_iff_eq, decide_eq_true_eq, and_assoc]

theorem selectedBuckets_mem (win : List WRow) (k : ℕ) (b : ℤ)
    (hb : b ∈ selectedBuckets win k) : ∃ r ∈ win, hourBucket r.unix_timestamp = b := by
  unfold selectedBuckets at hb
  have hb1 := List.take_subset _ _ hb
  rw [List.mem_insertionSort] at hb1
  rw [List.mem_dedup] at hb1
  rcases List.mem_map.mp hb1 with ⟨r, hr, hrb⟩
  exact ⟨r, hr, hrb⟩

theorem selectedBuckets_length (win : List WRow) (k : ℕ) :
    (selectedBuckets win k).length ≤ k := by
  unfold selectedBuckets
  rw [List.length_take]
  exact min_le_left _ _

theorem bucketMin_exists (win : List WRow) (b : ℤ)
    (hne : ∃ r ∈ win, hourBucket r.unix_timestamp = b) :
    ∃ r ∈ win, r.unix_timestamp = bucketMin win b ∧ hourBucket r.unix_timestamp = b := by
  rcases hne with ⟨r0, hr0, hb0⟩
  have hmem : bucketMin win b ∈
      (win.filter (fun r => hourBucket r.unix_timestamp == b)).map
        (fun r => r.unix_timestamp) := by
    apply listMinD_mem
    intro hnil
    have h0 : r0.unix_timestamp ∈
        (win.filter (fun r => hourBucket r.unix_timestamp == b)).map
          (fun r => r.unix_timestamp) :=
      List.mem_map.mpr ⟨r0, List.mem_filter.mpr ⟨hr0, by simp [hb0]⟩, rfl⟩
    rw [hnil] at h0
    cases h0
  rcases List.mem_map.mp hmem with ⟨r, hr, hrts⟩
  have hf := List.mem_filter.mp hr
  refine ⟨r, hf.1, hrts, ?_⟩
  have := hf.2
  simpa using this

theorem bucketMin_le (win : List WRow) (b : ℤ) (r : WRow) (hr : r ∈ win)
    (hb : hourBucket r.unix_timestamp = b) : bucketMin win b ≤ r.unix_timestamp := by
  apply listMinD_le
  exact List.mem_map.mpr ⟨r, List.mem_filter.mpr ⟨hr, by simp [hb]⟩, rfl⟩

theorem sampleMins_spec (win : List WRow) (k : ℕ) (m : ℤ) (hm : m ∈ sampleMins win k) :
    (∃ r ∈ win, r.unix_timestamp = m) ∧
    hourBucket m ∈ selectedBuckets win k ∧
    m = bucketMin win (hourBucket m) ∧
    (∀ r ∈ win, hourBucket r.unix_timestamp = hourBucket m → m ≤ r.unix_timestamp) := by
  rcases List.mem_map.mp hm with ⟨b, hbsel, hbm⟩
  have hne := selectedBuckets_mem win k b hbsel
  rcases bucketMin_exists win b hne with ⟨r, hr, hrts, hrb⟩
  have hmb : hourBucket m = b := by
    rw [← hbm, ← hrts]
    exact hrb
  refine ⟨⟨r, hr, by rw [hrts, hbm]⟩, by rw [hmb]; exact hbsel, by rw [hmb, hbm], ?_⟩
  intro q hq hqb
  have := bucketMin_le win b q hq (by rw [hqb, hmb])
  rw [hbm] at this
  exact this

theorem mem_getHourlySamples (table : List WRow) (sid : String) (hours : ℕ) (now : ℤ)
    (hh : 0 < hours) (r : WRow) :
    r ∈ getHourlySamples table sid hours now ↔
      r ∈ table ∧ r.sender_id = sid ∧
      r.unix_timestamp ∈
        sampleMins (windowRows table sid (now - (hours : ℤ) * 3600)) hours := by
  unfold getHourlySamples
  rw [if_pos hh]
  rw [List.mem_insertionSort, List.mem_filter]
  simp only [Bool.and_eq_true, beq_iff_eq, and_assoc, List.contains_eq_any_beq,
    List.any_eq_true, beq_iff_eq]
  constructor
  · rintro ⟨h1, h2, x, hx, hxe⟩
    exact ⟨h1, h2, hxe ▸ hx⟩
  · rintro ⟨h1, h2, h3⟩
    exact ⟨h1, h2, r.unix_timestamp, h3, rfl⟩

/-- C4 counterexample: two readings of sender `"A"` share the timestamp
7200 (both minimal in their hour bucket); `getHourlySamples` returns both,
i.e. two readings for one distinct calendar hour — refuting "at most one
reading per distinct calendar hour". -/
theorem C4_counterexample :
    getHourlySamples [mkRow 1 7200, mkRow 2 7200] "A" 2 7300 =
      [mkRow 1 7200, mkRow 2 7200] ∧
    hourBucket (mkRow 1 7200).unix_timestamp = hourBucket (mkRow 2 7200).unix_timestamp ∧
    (getHourlySamples [mkRow 1 7200, mkRow 2 7200] "A" 2 7300).length = 2 := by
  decide

/-- C4 amended: `getHourlySamples` returns, per hour bucket, exactly the
readings carrying the bucket's minimum timestamp within the window — so at
most one *distinct timestamp* per calendar hour (readings in the same hour
bucket all share that minimal timestamp; "at most one reading" holds
whenever the sender's readings have pairwise distinct timestamps), each
returned reading's timestamp is minimal among the sender's windowed readings
of its bucket, results are ordered ascending by timestamp, and at most
`hoursBack` distinct hour buckets are returned. -/
theorem C4_hourly_samples_min_per_bucket (table : List WRow) (sid : String) (hours : ℕ)
    (now : ℤ) (hh : 0 < hours) :
    (∀ r ∈ getHourlySamples table sid hours now,
      r ∈ table ∧ r.sender_id = sid ∧ now - (hours : ℤ) * 3600 ≤ r.unix_timestamp) ∧
    (∀ r ∈ getHourlySamples table sid hours now, ∀ q ∈ table,
      q.sender_id = sid → now - (hours : ℤ) * 3600 ≤ q.unix_timestamp →
      hourBucket q.unix_timestamp = hourBucket r.unix_timestamp →
      r.unix_timestamp ≤ q.unix_timestamp) ∧
    (∀ r ∈ getHourlySamples table sid hours now, ∀ q ∈ getHourlySamples table sid hours now,
      hourBucket r.unix_timestamp = hourBucket q.unix_timestamp →
      r.unix_timestamp = q.unix_timestamp) ∧
    (getHourlySamples table sid hours now).Sorted tsLe ∧
    ((getHourlySamples table sid hours now).map
      (fun r => hourBucket r.unix_timestamp)).dedup.length ≤ hours := by
  refine ⟨?_, ?_, ?_, ?_, ?_⟩
  · intro r hr
    rw [mem_getHourlySamples table sid hours now hh] at hr
    rcases hr with ⟨h1, h2, h3⟩
    rcases (sampleMins_spec _ _ _ h3).1 with ⟨w, hw, hwts⟩
    have := (mem_windowRows table sid _ w).mp hw
    exact ⟨h1, h2, hwts ▸ this.2.2⟩
  · intro r hr q hq hqs hqc hqb
    rw [mem_getHourlySamples table sid hours now hh] at hr
    rcases hr with ⟨-, -, h3⟩
    exact (sampleMins_spec _ _ _ h3).2.2.2 q
      ((mem_windowRows table sid _ q).mpr ⟨hq, hqs, hqc⟩) hqb
  · intro r hr q hq hb
    rw [mem_getHourlySamples table sid hours now hh] at hr hq
    have hr3 := (sampleMins_spec _ _ _ hr.2.2).2.2.1
    have hq3 := (sampleMins_spec _ _ _ hq.2.2).2.2.1
    rw [hr3, hq3, hb]
  · unfold getHourlySamples
    rw [if_pos hh]
    exact List.sorted_insertionSort tsLe _
  · rw [← List.card_toFinset]
    calc ((getHourlySamples table sid hours now).map
          (fun r => hourBucket r.unix_timestamp)).toFinset.card
        ≤ (selectedBuckets (windowRows table sid (now - (hours : ℤ) * 3600))
            hours).toFinset.card := by
          apply Finset.card_le_card
          intro b hb
          rw [List.mem_toFinset] at hb ⊢
          rcases List.mem_map.mp hb with ⟨r, hr, hrb⟩
          rw [mem_getHourlySamples table sid hours now hh] at hr
          have := (sampleMins_spec _ _ _ hr.2.2).2.1
          rw [hrb] at this
          exact this
      _ ≤ (selectedBuckets (windowRows table sid (now - (hours : ℤ) * 3600)) hours).length :=
          List.toFinset_card_le _
      _ ≤ hours := selectedBuckets_length _ _

/-- Witness for C4 amended, at the counterexample's table: both returned
readings lie in the window, and the bucket count is within the cap. -/
theorem C4_hourly_samples_min_per_bucket_witness :
    ((mkRow 1 7200) ∈ getHourlySamples [mkRow 1 7200, mkRow 2 7200] "A" 2 7300 →
      (mkRow 1 7200) ∈ ([mkRow 1 7200, mkRow 2 7200] : List WRow) ∧
      (mkRow 1 7200).sender_id = "A" ∧
      7300 - (2 : ℤ) * 3600 ≤ (mkRow 1 7200).unix_timestamp) ∧
    ((getHourlySamples [mkRow 1 7200, mkRow 2 7200] "A" 2 7300).map
      (fun r => hourBucket r.unix_timestamp)).dedup.length ≤ 2 :=
  ⟨(C4_hourly_samples_min_per_bucket [mkRow 1 7200, mkRow 2 7200] "A" 2 7300 (by decide)).1
      (mkRow 1 7200),
   (C4_hourly_samples_min_per_bucket [mkRow 1 7200, mkRow 2 7200] "A" 2 7300 (by decide)).2.2.2.2⟩
